import Mathlib

/-!
Shallow embedding of the OpenRouter key-rotating proxy (`src/main.py`) and
verification of the frozen claims about it.

The embedding covers:
* the round-robin key cursor (`get_next_key_index`, line 71);
* the bearer-token gate (`verify_token`, line 90);
* the per-attempt classification and retry loop of the
  `chat_completions` handler (lines 125-253), for both the streaming and
  the non-streaming paths, driven by an oracle `outcome : Nat → UpstreamResult`
  giving what the network yields on the 1st, 2nd, ... upstream call;
* the streaming relay generator (`stream_response_generator`, line 79),
  modelled as the trace of observable actions of each possible execution path;
* the fragment of Python's `json.loads` / compact `json.dumps` that the
  handler relies on (`request.json()`, `api_response.json()`,
  `JSONResponse.render`), restricted to JSON without floating-point
  numbers and without `\uXXXX` string escapes.
-/

namespace OpenRouterProxy

/-- JSON values as produced by Python's `json.loads` on the modelled fragment
(no floating-point numbers; integers only). Objects keep their fields in
source order; Python dict semantics (last duplicate key wins) is modelled in
`dict_get`. -/
inductive Json where
  | null
  | bool (b : Bool)
  | num (n : Int)
  | str (s : String)
  | arr (elems : List Json)
  | obj (fields : List (String × Json))

/-- Whitespace accepted between JSON tokens (as in Python's json module). -/
def isWsChar (c : Char) : Bool :=
  [' ', '\t', '\n', '\r'].contains c

/-- Drop leading JSON whitespace. -/
def skipWs : List Char → List Char
  | [] => []
  | c :: cs => if isWsChar c then skipWs cs else c :: cs

/-- Backslash escapes recognised inside JSON string literals
(the `\uXXXX` form is outside the modelled fragment). -/
def escTable : List (Char × Char) :=
  [('"', '"'), ('\\', '\\'), ('/', '/'), ('n', '\n'), ('t', '\t'),
   ('r', '\r'), ('b', Char.ofNat 8), ('f', Char.ofNat 12)]

/-- Look the escape character up in the table. -/
def escChar (e : Char) : Option Char :=
  (escTable.find? fun p => p.1 == e).map Prod.snd

/-- Parse the characters of a JSON string literal after its opening quote;
returns the decoded characters and the input after the closing quote. -/
def parseStringChars : List Char → Option (List Char × List Char)
  | [] => none
  | '"' :: cs => some ([], cs)
  | '\\' :: cs =>
    match cs with
    | [] => none
    | e :: cs2 => do
      let ch ← escChar e
      let p ← parseStringChars cs2
      some (ch :: p.1, p.2)
  | c :: cs => do
    let p ← parseStringChars cs
    some (c :: p.1, p.2)

/-- Take a maximal run of decimal digits. -/
def takeDigits : List Char → List Char × List Char
  | [] => ([], [])
  | c :: cs =>
    if c.isDigit then
      let p := takeDigits cs
      (c :: p.1, p.2)
    else ([], c :: cs)

/-- Numeric value of a digit run. -/
def digitsToNat (ds : List Char) : Nat :=
  ds.foldl (fun acc c => acc * 10 + (c.toNat - 48)) 0

mutual

/-- Recursive-descent parser for one JSON value (fuel-bounded; top level
supplies ample fuel). Models Python's `json.loads` on the fragment described
at `Json`. -/
def parseValue : Nat → List Char → Option (Json × List Char)
  | 0, _ => none
  | fuel + 1, s =>
    match skipWs s with
    | [] => none
    | '"' :: cs => do
      let p ← parseStringChars cs
      some (.str (String.mk p.1), p.2)
    | '\x7b' :: cs =>
      match skipWs cs with
      | '\x7d' :: rest => some (.obj [], rest)
      | s2 => do
        let p ← parseMembers fuel s2
        some (.obj p.1, p.2)
    | '[' :: cs =>
      match skipWs cs with
      | ']' :: rest => some (.arr [], rest)
      | s2 => do
        let p ← parseElems fuel s2
        some (.arr p.1, p.2)
    | 't' :: 'r' :: 'u' :: 'e' :: rest => some (.bool true, rest)
    | 'f' :: 'a' :: 'l' :: 's' :: 'e' :: rest => some (.bool false, rest)
    | 'n' :: 'u' :: 'l' :: 'l' :: rest => some (.null, rest)
    | '-' :: cs =>
      match takeDigits cs with
      | ([], _) => none
      | (ds, rest) => some (.num (-(digitsToNat ds : Int)), rest)
    | c :: cs =>
      if c.isDigit then
        match takeDigits (c :: cs) with
        | (ds, rest) => some (.num (digitsToNat ds), rest)
      else none

/-- Parse one or more `"key": value` members followed by the closing brace. -/
def parseMembers : Nat → List Char → Option (List (String × Json) × List Char)
  | 0, _ => none
  | fuel + 1, s =>
    match skipWs s with
    | '"' :: cs => do
      let kp ← parseStringChars cs
      match skipWs kp.2 with
      | ':' :: afterColon => do
        let vp ← parseValue fuel afterColon
        match skipWs vp.2 with
        | ',' :: afterComma => do
          let mp ← parseMembers fuel afterComma
          some ((String.mk kp.1, vp.1) :: mp.1, mp.2)
        | '\x7d' :: afterBrace => some ([(String.mk kp.1, vp.1)], afterBrace)
        | _ => none
      | _ => none
    | _ => none

/-- Parse one or more array elements followed by the closing bracket. -/
def parseElems : Nat → List Char → Option (List Json × List Char)
  | 0, _ => none
  | fuel + 1, s => do
    let vp ← parseValue fuel s
    match skipWs vp.2 with
    | ',' :: afterComma => do
      let ep ← parseElems fuel afterComma
      some (vp.1 :: ep.1, ep.2)
    | ']' :: afterBracket => some ([vp.1], afterBracket)
    | _ => none

end

/-- Python's `json.loads`: parse a whole document, allowing trailing
whitespace only. `none` models a raised `json.JSONDecodeError`. -/
def json_loads (s : String) : Option Json :=
  match parseValue (s.length + 1) s.data with
  | some (v, rest) => if skipWs rest = [] then some v else none
  | none => none

/-- Escaping used by `json.dumps` (with `ensure_ascii=False`) for the
characters occurring in the modelled fragment. -/
def escapeChar : Char → String
  | '"' => "\\\""
  | '\\' => "\\\\"
  | '\n' => "\\n"
  | '\t' => "\\t"
  | '\r' => "\\r"
  | c => String.singleton c

/-- Render a JSON string literal. -/
def renderString (s : String) : String :=
  "\"" ++ String.join (s.data.map escapeChar) ++ "\""

mutual

/-- Starlette's `JSONResponse.render`: `json.dumps(content, ensure_ascii=False,
allow_nan=False, indent=None, separators=(",", ":"))` — the compact
serialization, with no whitespace between tokens. -/
def renderJson : Json → String
  | .null => "null"
  | .bool true => "true"
  | .bool false => "false"
  | .num n => toString n
  | .str s => renderString s
  | .arr es => "[" ++ renderElems es ++ "]"
  | .obj ms => "\x7b" ++ renderMembers ms ++ "\x7d"

/-- Comma-separated rendering of array elements. -/
def renderElems : List Json → String
  | [] => ""
  | [v] => renderJson v
  | v :: vs => renderJson v ++ "," ++ renderElems vs

/-- Comma-separated rendering of object members with `:` separators. -/
def renderMembers : List (String × Json) → String
  | [] => ""
  | [(k, v)] => renderString k ++ ":" ++ renderJson v
  | (k, v) :: ms => renderString k ++ ":" ++ renderJson v ++ "," ++ renderMembers ms

end

/-- Python `dict.get` over the parsed object fields: with duplicate keys the
last occurrence wins, as in a Python dict built by `json.loads`. -/
def dict_get (ms : List (String × Json)) (key : String) : Option Json :=
  match ms with
  | [] => none
  | (k, v) :: rest =>
    match dict_get rest key with
    | some w => some w
    | none => if k == key then some v else none

/-- Python truthiness of a JSON value, as used by `if is_streaming:`. -/
def Json.truthy : Json → Bool
  | .null => false
  | .bool b => b
  | .num n => n != 0
  | .str s => s != ""
  | .arr es => !es.isEmpty
  | .obj ms => !ms.isEmpty

/-- `get_next_key_index` (main.py line 71): inside the lock, read the cursor,
advance it to `(idx + 1) % NUM_KEYS`, and return the read value. The state is
the cursor; the result pairs the returned index with the new cursor. -/
def get_next_key_index (N cursor : Nat) : Nat × Nat :=
  (cursor, (cursor + 1) % N)

/-- `K` sequential reservations from cursor value `cursor`: the list of
indices returned by `K` consecutive `get_next_key_index` calls. -/
def reserve_calls (N : Nat) : Nat → Nat → List Nat
  | _, 0 => []
  | cursor, k + 1 =>
    let p := get_next_key_index N cursor
    p.1 :: reserve_calls N p.2 k

/-- Worker for `py_split`: `acc` holds the characters of the current token in
reverse order. -/
def py_split_chars : List Char → List Char → List String
  | acc, [] => if acc.isEmpty then [] else [String.mk acc.reverse]
  | acc, c :: cs =>
    if c.isWhitespace then
      if acc.isEmpty then py_split_chars [] cs
      else String.mk acc.reverse :: py_split_chars [] cs
    else py_split_chars (c :: acc) cs

/-- Python `str.split()` with no argument: split on whitespace runs,
discarding empty pieces. -/
def py_split (s : String) : List String :=
  py_split_chars [] s.data

/-- ASCII lowercasing of one character (Python `str.lower()` on the ASCII
schemes that can appear in an `Authorization` header). -/
def lowerChar (c : Char) : Char :=
  if c.isUpper then Char.ofNat (c.toNat + 32) else c

/-- ASCII `str.lower()`. -/
def str_lower (s : String) : String :=
  String.mk (s.data.map lowerChar)

/-- The scheme/token decomposition performed by `verify_token`
(main.py line 103): `scheme, token = authorization.split()` succeeds exactly
when the header has two whitespace-separated parts, and the scheme check is
case-insensitive. `some token` means a well-formed Bearer header. -/
def bearer_token (a : String) : Option String :=
  match py_split a with
  | [scheme, token] => if str_lower scheme == "bearer" then some token else none
  | _ => none

/-- `verify_token` (main.py lines 90-122). `none` means the request proceeds;
`some c` means an `HTTPException` with status `c` is raised (401 for a
missing/malformed header or wrong scheme — including the `ValueError` path of
the tuple unpacking — and 403 for an unrecognised token). -/
def verify_token (allowed : List String) (auth : Option String) : Option Nat :=
  if allowed.isEmpty then none
  else
    match auth with
    | none => some 401
    | some a =>
      match py_split a with
      | [scheme, token] =>
        if str_lower scheme == "bearer" then
          if allowed.contains token then none else some 403
        else some 401
      | _ => some 401

/-- What the network yields for one upstream call: either an HTTP response
(status code and fully-read body bytes) or an `httpx.RequestError`
(exception class name and message). The body of a streaming response is the
byte stream it would deliver, and is available to the error branches via
`aread()`. -/
inductive UpstreamResult where
  | response (status : Nat) (body : String)
  | transportError (cls : String) (msg : String)

/-- The handler's per-attempt success test (main.py lines 164 and 203):
`api_response.status_code == 200`, and nothing else. -/
def isSuccess : UpstreamResult → Bool
  | .response status _ => status == 200
  | .transportError _ _ => false

/-- Detail recorded for a 429 (main.py lines 173-176 / 208-211):
the message plus the upstream body appended by the `try` block. -/
def rate_limit_detail (k : Nat) (body : String) : String :=
  "Rate limit exceeded for key index " ++ toString k ++ ". Response: " ++ body

/-- Detail recorded for any other non-200 status (main.py lines 186 / 218). -/
def upstream_error_detail (k status : Nat) (body : String) : String :=
  "Error with key index " ++ toString k ++ ": Status " ++ toString status ++
    ", Response: " ++ body

/-- Detail recorded for an `httpx.RequestError` (main.py line 229). -/
def transport_error_detail (k : Nat) (cls msg : String) : String :=
  "HTTPX Request Error with key index " ++ toString k ++ ": " ++ cls ++ " - " ++ msg

/-- Detail recorded by the catch-all `except Exception` (main.py line 240). -/
def unexpected_error_detail (k : Nat) (cls msg : String) : String :=
  "Unexpected error processing request with key index " ++ toString k ++ ": " ++
    cls ++ " - " ++ msg

/-- Stand-in for `str(e)` of the `json.JSONDecodeError` raised when `body`
fails to decode; the exact stdlib message text is an environment detail,
modelled as a function of the undecodable body. -/
def json_decode_error_msg (body : String) : String :=
  "could not decode " ++ body

/-- Body of a response handed back to the caller: a `JSONResponse` payload
(the non-streaming 200 path re-serialises the parsed body) or a
`StreamingResponse` relaying the upstream byte stream. -/
inductive RespBody where
  | json (j : Json)
  | stream (body : String)

/-- The bytes FastAPI puts on the wire for a response body:
`JSONResponse` renders via compact `json.dumps` (see `renderJson`);
`StreamingResponse` forwards the stream bytes. -/
def RespBody.wireBytes : RespBody → String
  | .json j => renderJson j
  | .stream s => s

/-- Outcome of classifying one attempt inside the loop: either the handler
returns to the caller now (`completed`), or it records
`last_error_status` / `last_error_detail` and rotates on (`failure`). -/
inductive StepResult where
  | completed (status : Nat) (body : RespBody)
  | failure (status : Nat) (detail : String)

/-- Whether a step completed the request. -/
def StepResult.isCompletedStep : StepResult → Bool
  | .completed _ _ => true
  | .failure _ _ => false

/-- The `(last_error_status, last_error_detail)` pair recorded for a failed
attempt with key index `k` (only meaningful when `isSuccess r = false`):
429 keeps status 429, any other status is kept as-is, and an
`httpx.RequestError` is recorded as 503 (main.py lines 172-195, 207-225,
227-236). -/
def failure_of (k : Nat) : UpstreamResult → Nat × String
  | .response status body =>
    if status == 429 then (429, rate_limit_detail k body)
    else (status, upstream_error_detail k status body)
  | .transportError cls msg => (503, transport_error_detail k cls msg)

/-- One attempt of the `chat_completions` loop body with key index `k`
(main.py lines 156-248). Streaming mode returns a `StreamingResponse` as
soon as the status is 200; non-streaming mode calls `api_response.json()`,
whose `json.JSONDecodeError` on a non-JSON body is caught by the generic
`except Exception` branch and recorded as a 500 failure. Non-200 statuses
and transport errors are recorded via `failure_of`. -/
def classify (streaming : Bool) (k : Nat) (r : UpstreamResult) : StepResult :=
  match r with
  | .response status body =>
    if status == 200 then
      if streaming then .completed status (.stream body)
      else
        match json_loads body with
        | some j => .completed status (.json j)
        | none =>
          .failure 500
            (unexpected_error_detail k "JSONDecodeError" (json_decode_error_msg body))
    else if status == 429 then .failure 429 (rate_limit_detail k body)
    else .failure status (upstream_error_detail k status body)
  | .transportError cls msg => .failure 503 (transport_error_detail k cls msg)

/-- Terminal result of one dispatch run: a response returned to the caller,
or the `HTTPException(last_error_status, last_error_detail)` raised after the
loop (whether on the last iteration or at main.py line 253 — both surface
the same status/detail to the caller). -/
inductive DispatchResult where
  | completed (status : Nat) (body : RespBody)
  | exhausted (status : Nat) (detail : String)

/-- Status surfaced to the caller. -/
def DispatchResult.statusOf : DispatchResult → Nat
  | .completed s _ => s
  | .exhausted s _ => s

/-- Failure detail surfaced to the caller (empty for a completed response,
whose body is not a failure detail). -/
def DispatchResult.detailOf : DispatchResult → String
  | .completed _ _ => ""
  | .exhausted _ d => d

/-- The `for i in range(NUM_KEYS)` retry loop (main.py lines 143-253):
`i` is the loop counter, `remaining` the iterations left, `last` the recorded
`(last_error_status, last_error_detail)`. Attempt `i` uses key index
`(start + i) % N` and consumes `outcome i`. Returns the dispatch result and
the number of upstream calls performed. -/
def dispatch_loop (streaming : Bool) (N start : Nat) (outcome : Nat → UpstreamResult) :
    Nat → Nat → Nat × String → DispatchResult × Nat
  | _, 0, last => (.exhausted last.1 last.2, 0)
  | i, remaining + 1, _ =>
    match classify streaming ((start + i) % N) (outcome i) with
    | .completed st b => (.completed st b, 1)
    | .failure st d =>
      let r := dispatch_loop streaming N start outcome (i + 1) remaining (st, d)
      (r.1, r.2 + 1)

/-- One full dispatch run of `chat_completions` after the body has been read:
the loop starts at counter 0 with `NUM_KEYS` iterations and the default
`(500, "All API keys failed.")` error pair (main.py lines 140-141). -/
def dispatch (streaming : Bool) (N start : Nat) (outcome : Nat → UpstreamResult) :
    DispatchResult × Nat :=
  dispatch_loop streaming N start outcome 0 N (500, "All API keys failed.")

/-- Caller-visible outcome of the whole handler. -/
inductive HandlerOutcome where
  | invalidJson (status : Nat) (detail : String)
  | attributeError
  | dispatched (r : DispatchResult)

/-- The `chat_completions` handler (main.py lines 125-253) over the state it
touches: given the pool size, the cursor value, the raw request body and the
upstream oracle, produce the caller-visible outcome, the cursor afterwards
and the number of upstream calls. A non-JSON body raises
`HTTPException(400, "Invalid JSON body")` before `get_next_key_index` runs;
a JSON body that is not an object makes `request_data.get("stream", False)`
raise `AttributeError` (an unhandled 500), also before any reservation.
`model_name` is read only for logging and does not affect behaviour. -/
def chat_completions (N cursor : Nat) (rawBody : String)
    (outcome : Nat → UpstreamResult) : HandlerOutcome × Nat × Nat :=
  match json_loads rawBody with
  | none => (.invalidJson 400 "Invalid JSON body", cursor, 0)
  | some (.obj fields) =>
    let streaming :=
      match dict_get fields "stream" with
      | none => false
      | some v => v.truthy
    let p := get_next_key_index N cursor
    let r := dispatch streaming N p.1 outcome
    (.dispatched r.1, p.2, r.2)
  | some _ => (.attributeError, cursor, 0)

/-- How the upstream byte stream terminates once its chunks are consumed:
normal end of `aiter_bytes()`, or an exception raised mid-iteration. -/
inductive StreamEnd where
  | eof
  | err (msg : String)

/-- Observable actions of `stream_response_generator` (main.py lines 79-87). -/
inductive GenAction where
  | yield (chunk : String)
  | logError (msg : String)
  | aclose

/-- Number of `api_response.aclose()` calls in a trace. -/
def countClose : List GenAction → Nat
  | [] => 0
  | GenAction.aclose :: rest => countClose rest + 1
  | _ :: rest => countClose rest

/-- Trace of the generator when the caller consumes the whole stream: every
chunk is yielded; a normal end runs only the `finally` block, while an
exception from `aiter_bytes()` is caught by the `except Exception` branch
(logged) and then the `finally` block runs. -/
def end_trace (chunks : List String) (ending : StreamEnd) : List GenAction :=
  chunks.map GenAction.yield ++
    match ending with
    | .eof => [GenAction.aclose]
    | .err m => [GenAction.logError ("Error while streaming response: " ++ m),
                 GenAction.aclose]

/-- `stream_response_generator` (main.py lines 79-87) as the trace of one
execution. `cutoff = some k` with `k < chunks.length` models the caller
disconnecting after `k` chunks: the generator is closed at its yield point,
`GeneratorExit` (a `BaseException`) is not caught by the `except Exception`
clause, and the `finally` block still runs. Any other `cutoff` means the
caller consumes the stream to its end (`end_trace`). -/
def stream_response_generator (chunks : List String) (ending : StreamEnd)
    (cutoff : Option Nat) : List GenAction :=
  match cutoff with
  | some k =>
    if k < chunks.length then (chunks.take k).map GenAction.yield ++ [GenAction.aclose]
    else end_trace chunks ending
  | none => end_trace chunks ending

/-! ## Helper lemmas about the dispatch loop -/

/-- A non-200 / transport-error attempt is never returned to the caller: it is
recorded exactly as `failure_of` says, in both streaming and non-streaming
mode (the three failure branches of the loop body are mode-independent). -/
theorem classify_not_success (streaming : Bool) (k : Nat) (r : UpstreamResult)
    (h : isSuccess r = false) :
    classify streaming k r = .failure (failure_of k r).1 (failure_of k r).2 := by
  cases r with
  | response status body =>
    have hs : (status == 200) = false := by simpa [isSuccess] using h
    cases h429 : (status == 429) with
    | true => simp [classify, failure_of, hs, h429]
    | false => simp [classify, failure_of, hs, h429]
  | transportError cls msg => simp [classify, failure_of]

/-- One unfolding step of the retry loop. -/
theorem dispatch_loop_succ (streaming : Bool) (N start : Nat)
    (outcome : Nat → UpstreamResult) (i remaining : Nat) (last : Nat × String) :
    dispatch_loop streaming N start outcome i (remaining + 1) last
      = match classify streaming ((start + i) % N) (outcome i) with
        | .completed st b => (.completed st b, 1)
        | .failure st d =>
          ((dispatch_loop streaming N start outcome (i + 1) remaining (st, d)).1,
           (dispatch_loop streaming N start outcome (i + 1) remaining (st, d)).2 + 1) := rfl

/-- If the first `m` classified attempts fail and attempt `i + m` completes,
the loop returns that completion after exactly `m + 1` calls. -/
theorem dispatch_loop_completed (streaming : Bool) (N start : Nat)
    (outcome : Nat → UpstreamResult) :
    ∀ (m i remaining : Nat) (last : Nat × String) (st : Nat) (b : RespBody),
      m < remaining →
      (∀ t, t < m →
        (classify streaming ((start + (i + t)) % N) (outcome (i + t))).isCompletedStep
          = false) →
      classify streaming ((start + (i + m)) % N) (outcome (i + m)) = .completed st b →
      dispatch_loop streaming N start outcome i remaining last = (.completed st b, m + 1) := by
  intro m
  induction m with
  | zero =>
    intro i remaining last st b hm hfail hsucc
    cases remaining with
    | zero => omega
    | succ r =>
      have hs : classify streaming ((start + i) % N) (outcome i) = .completed st b := by
        simpa using hsucc
      rw [dispatch_loop_succ, hs]
  | succ m ih =>
    intro i remaining last st b hm hfail hsucc
    cases remaining with
    | zero => omega
    | succ r =>
      have h0 : (classify streaming ((start + i) % N) (outcome i)).isCompletedStep
          = false := by
        simpa using hfail 0 (Nat.succ_pos m)
      cases hc : classify streaming ((start + i) % N) (outcome i) with
      | completed st0 b0 =>
        rw [hc] at h0
        simp [StepResult.isCompletedStep] at h0
      | failure st0 d0 =>
        have hrec := ih (i + 1) r (st0, d0) st b (by omega)
          (fun t ht => by
            have h := hfail (t + 1) (by omega)
            have e : i + (t + 1) = i + 1 + t := by omega
            rw [e] at h
            exact h)
          (by
            have e : i + (m + 1) = i + 1 + m := by omega
            rw [e] at hsucc
            exact hsucc)
        rw [dispatch_loop_succ, hc]
        simp [hrec]

/-- If all of the next `m + 1` attempts fail, the loop makes all `m + 1`
calls and exhausts with the failure information of the last one —
last-write-wins over the recorded error pair. -/
theorem dispatch_loop_exhausts (streaming : Bool) (N start : Nat)
    (outcome : Nat → UpstreamResult) :
    ∀ (m i : Nat) (last : Nat × String),
      (∀ t, t < m + 1 → isSuccess (outcome (i + t)) = false) →
      dispatch_loop streaming N start outcome i (m + 1) last
        = (.exhausted (failure_of ((start + (i + m)) % N) (outcome (i + m))).1
                      (failure_of ((start + (i + m)) % N) (outcome (i + m))).2, m + 1) := by
  intro m
  induction m with
  | zero =>
    intro i last hfail
    have h0 : isSuccess (outcome i) = false := by simpa using hfail 0 (by omega)
    have hc := classify_not_success streaming ((start + i) % N) (outcome i) h0
    rw [dispatch_loop_succ, hc]
    simp [dispatch_loop]
  | succ m ih =>
    intro i last hfail
    have h0 : isSuccess (outcome i) = false := by simpa using hfail 0 (by omega)
    have hc := classify_not_success streaming ((start + i) % N) (outcome i) h0
    have hrec := ih (i + 1) ((failure_of ((start + i) % N) (outcome i)).1,
                             (failure_of ((start + i) % N) (outcome i)).2)
      (fun t ht => by
        have h := hfail (t + 1) (by omega)
        have e : i + (t + 1) = i + 1 + t := by omega
        rw [e] at h
        exact h)
    have e2 : i + 1 + m = i + (m + 1) := by omega
    rw [e2] at hrec
    rw [dispatch_loop_succ, hc]
    simp [hrec]

/-- A full all-failure dispatch run: `N` calls, exhausted with the last
attempt's recorded status and detail. -/
theorem dispatch_all_failures (streaming : Bool) (N start : Nat)
    (outcome : Nat → UpstreamResult) (hN : 1 ≤ N)
    (hfail : ∀ k, k < N → isSuccess (outcome k) = false) :
    dispatch streaming N start outcome
      = (.exhausted (failure_of ((start + (N - 1)) % N) (outcome (N - 1))).1
                    (failure_of ((start + (N - 1)) % N) (outcome (N - 1))).2, N) := by
  obtain ⟨m, rfl⟩ : ∃ m, N = m + 1 := ⟨N - 1, by omega⟩
  have h := dispatch_loop_exhausts streaming (m + 1) start outcome m 0
      (500, "All API keys failed.") (fun t ht => by simpa using hfail t (by omega))
  simpa [dispatch] using h

/-! ## Claim C1 -/

/-- C1, counterexample: the claim "a first success always short-circuits the
loop" fails on the non-streaming path. Attempt 1 is a Success by the code's
own per-attempt test (`status_code == 200`), yet because its body is not
valid JSON the handler records a 500 failure and rotates on: the dispatch
makes 2 upstream calls and returns a result derived from attempt 2, not
attempt 1. -/
theorem c1_counterexample :
    isSuccess ((fun k => if k == 0 then UpstreamResult.response 200 "bad"
                         else UpstreamResult.response 200 "\x7b\x7d") 0) = true ∧
    dispatch false 2 0
      (fun k => if k == 0 then UpstreamResult.response 200 "bad"
                else UpstreamResult.response 200 "\x7b\x7d")
      = (.completed 200 (.json (.obj [])), 2) := ⟨rfl, rfl⟩

/-- C1 (amended): if attempts `1..j-1` each fail to complete (rate-limited,
upstream error, transport error, or — non-streaming only — a 200 response
with a non-JSON body) and attempt `j` completes (status 200, with a
JSON-decodable body when non-streaming), then dispatch performs exactly `j`
upstream calls and returns the `Completed` result derived from attempt `j`,
with no further attempts. -/
theorem c1_first_success_short_circuits (streaming : Bool) (N start j : Nat)
    (outcome : Nat → UpstreamResult) (st : Nat) (b : RespBody)
    (hj : 1 ≤ j) (hjN : j ≤ N)
    (hfail : ∀ k, k < j - 1 →
      (classify streaming ((start + k) % N) (outcome k)).isCompletedStep = false)
    (hsucc : classify streaming ((start + (j - 1)) % N) (outcome (j - 1))
      = .completed st b) :
    dispatch streaming N start outcome = (.completed st b, j) := by
  obtain ⟨m, rfl⟩ : ∃ m, j = m + 1 := ⟨j - 1, by omega⟩
  have h := dispatch_loop_completed streaming N start outcome m 0 N
      (500, "All API keys failed.") st b (by omega)
      (fun t ht => by simpa using hfail t (by omega))
      (by simpa using hsucc)
  simpa [dispatch] using h

/-- C1 witness: streaming run over 3 keys where attempt 1 is rate-limited and
attempt 2 succeeds — exactly 2 calls, completed from attempt 2. -/
theorem c1_first_success_short_circuits_witness :
    dispatch true 3 0
      (fun k => if k == 0 then UpstreamResult.response 429 "x"
                else UpstreamResult.response 200 "s")
      = (.completed 200 (.stream "s"), 2) :=
  c1_first_success_short_circuits true 3 0 2
    (fun k => if k == 0 then UpstreamResult.response 429 "x"
              else UpstreamResult.response 200 "s")
    200 (.stream "s") (by decide) (by decide) (by decide) rfl

/-! ## Claim C2 -/

/-- C2: for every all-failure sequence (every attempt non-200 or a transport
error, in any mix) over `N ≥ 1` keys, dispatch performs exactly `N` upstream
calls and surfaces `Exhausted` with the status and detail recorded for the
`N`-th (last) attempt, discarding all earlier attempts' statuses and details
(the result depends only on the last attempt and its key index). -/
theorem c2_exhausted_last_failure (streaming : Bool) (N start : Nat)
    (outcome : Nat → UpstreamResult) (hN : 1 ≤ N)
    (hfail : ∀ k, k < N → isSuccess (outcome k) = false) :
    dispatch streaming N start outcome
      = (.exhausted (failure_of ((start + (N - 1)) % N) (outcome (N - 1))).1
                    (failure_of ((start + (N - 1)) % N) (outcome (N - 1))).2, N) :=
  dispatch_all_failures streaming N start outcome hN hfail

/-- C2 witness: two keys, both rate-limited — 2 calls, exhausted with the
second attempt's 429 detail. -/
theorem c2_exhausted_last_failure_witness :
    dispatch false 2 0 (fun _ => UpstreamResult.response 429 "r")
      = (.exhausted 429 (rate_limit_detail 1 "r"), 2) :=
  c2_exhausted_last_failure false 2 0 (fun _ => UpstreamResult.response 429 "r")
    (by decide) (by decide)

/-! ## Claim C10 -/

/-- C10: a non-streaming attempt whose upstream response is status 200 with a
body that is not valid JSON is treated as a failure — recorded as status 500
with the catch-all detail — and the loop rotates to the next credential,
consuming one of the `N` attempt slots, rather than returning the response as
a success. -/
theorem c10_bad_json_success_retried (N start : Nat) (b : String)
    (outcome : Nat → UpstreamResult) (hN : 1 ≤ N)
    (hb : json_loads b = none) (h0 : outcome 0 = .response 200 b) :
    classify false ((start + 0) % N) (outcome 0)
      = .failure 500 (unexpected_error_detail ((start + 0) % N) "JSONDecodeError"
          (json_decode_error_msg b)) ∧
    dispatch false N start outcome
      = ((dispatch_loop false N start outcome 1 (N - 1)
            (500, unexpected_error_detail ((start + 0) % N) "JSONDecodeError"
              (json_decode_error_msg b))).1,
         (dispatch_loop false N start outcome 1 (N - 1)
            (500, unexpected_error_detail ((start + 0) % N) "JSONDecodeError"
              (json_decode_error_msg b))).2 + 1) := by
  have hcl : classify false ((start + 0) % N) (outcome 0)
      = .failure 500 (unexpected_error_detail ((start + 0) % N) "JSONDecodeError"
          (json_decode_error_msg b)) := by
    rw [h0]
    simp [classify, hb]
  refine ⟨hcl, ?_⟩
  obtain ⟨m, rfl⟩ : ∃ m, N = m + 1 := ⟨N - 1, by omega⟩
  rw [dispatch, dispatch_loop_succ, hcl]
  simp

/-- C10 witness: two keys, upstream answers 200 with the non-JSON body
`bad` — the first attempt is recorded as a 500 failure and a second upstream
call is made. -/
theorem c10_bad_json_success_retried_witness :
    json_loads "bad" = none ∧
    dispatch false 2 0 (fun _ => UpstreamResult.response 200 "bad")
      = ((dispatch_loop false 2 0 (fun _ => UpstreamResult.response 200 "bad") 1 1
            (500, unexpected_error_detail 0 "JSONDecodeError"
              (json_decode_error_msg "bad"))).1,
         (dispatch_loop false 2 0 (fun _ => UpstreamResult.response 200 "bad") 1 1
            (500, unexpected_error_detail 0 "JSONDecodeError"
              (json_decode_error_msg "bad"))).2 + 1) := by
  refine ⟨rfl, ?_⟩
  exact (c10_bad_json_success_retried 2 0 "bad"
    (fun _ => UpstreamResult.response 200 "bad") (by decide) rfl rfl).2

/-! ## Claim C3 -/

/-- `K` sequential reservations from a cursor `start < N` return exactly the
arithmetic progression `start, start+1, ..., start+K-1 (mod N)`. -/
theorem reserve_calls_spec (N : Nat) (hN : 1 ≤ N) :
    ∀ (K start : Nat), start < N →
      reserve_calls N start K = (List.range K).map (fun k => (start + k) % N) := by
  intro K
  induction K with
  | zero => intro start hs; simp [reserve_calls]
  | succ K ih =>
    intro start hs
    have hs2 : (start + 1) % N < N := Nat.mod_lt _ (by omega)
    have hfg : (fun k => ((start + 1) % N + k) % N) = (fun k => (start + (k + 1)) % N) := by
      funext k
      rw [Nat.mod_add_mod]
      congr 1
      omega
    rw [List.range_succ_eq_map]
    simp [reserve_calls, get_next_key_index, ih ((start + 1) % N) hs2, hfg,
      List.map_map, Nat.mod_eq_of_lt hs]
    intro a ha
    congr 1
    omega

/-- C3: one `get_next_key_index` call returns the cursor `idx` and advances
the cursor to `(idx + 1) % N`; `K` sequential calls starting from cursor
`start` return exactly `start, start+1, ..., start+K-1 (mod N)`, and for
`K ≤ N` those indices are pairwise distinct (no duplicates, no gaps). -/
theorem c3_round_robin_reservation (N start K : Nat) (hN : 1 ≤ N) (hstart : start < N) :
    get_next_key_index N start = (start, (start + 1) % N) ∧
    reserve_calls N start K = (List.range K).map (fun k => (start + k) % N) ∧
    (K ≤ N → (reserve_calls N start K).Nodup) := by
  refine ⟨rfl, reserve_calls_spec N hN K start hstart, fun hK => ?_⟩
  rw [reserve_calls_spec N hN K start hstart]
  refine List.Nodup.map_on ?_ (List.nodup_range K)
  intro x hx y hy hxy
  have hx2 : x < K := List.mem_range.mp hx
  have hy2 : y < K := List.mem_range.mp hy
  have h2 : x % N = y % N := Nat.ModEq.add_left_cancel' start hxy
  rwa [Nat.mod_eq_of_lt (by omega), Nat.mod_eq_of_lt (by omega)] at h2

/-- C3 witness: from cursor 1 of a 3-key pool, 3 reservations return
`1, 2, 0` — the rotation, duplicate-free. -/
theorem c3_round_robin_reservation_witness :
    reserve_calls 3 1 3 = (List.range 3).map (fun k => (1 + k) % 3) ∧
    (reserve_calls 3 1 3).Nodup :=
  ⟨(c3_round_robin_reservation 3 1 3 (by decide) (by decide)).2.1,
   (c3_round_robin_reservation 3 1 3 (by decide) (by decide)).2.2 (by decide)⟩

/-! ## Claim C4 -/

/-- C4, counterexample: the claim says every 2xx status is classified as
Success, but the code's test is `status_code == 200` exactly: a 201 response
is classified as an upstream error (recorded, retried), not as a Success. -/
theorem c4_counterexample :
    classify true 0 (.response 201 "ok")
      = .failure 201 (upstream_error_detail 0 201 "ok") ∧
    (classify true 0 (.response 201 "ok")).isCompletedStep = false := ⟨rfl, rfl⟩

/-- C4 (amended): per-attempt classification maps status exactly 200 to
Success (unconditionally when streaming; via a JSON-decodable body when
non-streaming), status 429 to RateLimited, every other status — including
non-200 2xx codes — to UpstreamError with that status, and transport-level
failures to TransportError recorded as 503. -/
theorem c4_classification_mapping (streaming : Bool) (k s : Nat)
    (b bs bj cls msg : String) (j : Json)
    (hs200 : s ≠ 200) (hs429 : s ≠ 429) (hj : json_loads bj = some j) :
    classify true k (.response 200 bs) = .completed 200 (.stream bs) ∧
    classify false k (.response 200 bj) = .completed 200 (.json j) ∧
    classify streaming k (.response 429 b) = .failure 429 (rate_limit_detail k b) ∧
    classify streaming k (.response s b) = .failure s (upstream_error_detail k s b) ∧
    classify streaming k (.transportError cls msg)
      = .failure 503 (transport_error_detail k cls msg) := by
  have h200 : (s == 200) = false := by
    cases hb2 : s == 200 with
    | false => rfl
    | true => exact absurd (by simpa using hb2) hs200
  have h429 : (s == 429) = false := by
    cases hb2 : s == 429 with
    | false => rfl
    | true => exact absurd (by simpa using hb2) hs429
  exact ⟨rfl, by simp [classify, hj], rfl, by simp [classify, h200, h429], rfl⟩

/-- C4 witness: a 404 is recorded as an upstream error; a 200 with body `1`
completes with the parsed JSON payload. -/
theorem c4_classification_mapping_witness :
    classify true 1 (.response 404 "e") = .failure 404 (upstream_error_detail 1 404 "e") ∧
    classify false 1 (.response 200 "1") = .completed 200 (.json (.num 1)) := by
  have h := c4_classification_mapping true 1 404 "e" "x" "1" "c" "m" (.num 1)
    (by decide) (by decide) rfl
  exact ⟨h.2.2.2.1, h.2.1⟩

/-! ## Claim C5 -/

/-- C5, counterexample: the upstream body is parsed and re-serialized in
compact form, so the bytes handed to the caller are not byte-identical to the
upstream body: for upstream body `{"id": "x"}` (with a space) the caller
receives `{"id":"x"}` (without). -/
theorem c5_counterexample :
    dispatch false 1 0 (fun _ => UpstreamResult.response 200 "\x7b\"id\": \"x\"\x7d")
      = (.completed 200 (.json (.obj [("id", .str "x")])), 1) ∧
    (RespBody.json (.obj [("id", .str "x")])).wireBytes = "\x7b\"id\":\"x\"\x7d" ∧
    ("\x7b\"id\":\"x\"\x7d" : String) ≠ "\x7b\"id\": \"x\"\x7d" :=
  ⟨rfl, rfl, by decide⟩

/-- C5 (amended): a non-streaming dispatch whose first attempt succeeds with
a JSON-decodable body returns the parsed upstream body to the caller with the
upstream's status code; the bytes delivered are the compact re-serialization
of that parsed body (semantically the same JSON document, but not
byte-identical to the upstream bytes in general). -/
theorem c5_success_body_reserialized (N start : Nat) (outcome : Nat → UpstreamResult)
    (b : String) (j : Json) (hN : 1 ≤ N) (h0 : outcome 0 = .response 200 b)
    (hb : json_loads b = some j) :
    dispatch false N start outcome = (.completed 200 (.json j), 1) ∧
    (RespBody.json j).wireBytes = renderJson j := by
  refine ⟨?_, rfl⟩
  obtain ⟨m, rfl⟩ : ∃ m, N = m + 1 := ⟨N - 1, by omega⟩
  rw [dispatch, dispatch_loop_succ, h0]
  simp [classify, hb]

/-- C5 witness: a one-key pool answering 200 with body `{}` completes at once
with the parsed empty object. -/
theorem c5_success_body_reserialized_witness :
    dispatch false 1 0 (fun _ => UpstreamResult.response 200 "\x7b\x7d")
      = (.completed 200 (.json (.obj [])), 1) :=
  (c5_success_body_reserialized 1 0 (fun _ => UpstreamResult.response 200 "\x7b\x7d")
    "\x7b\x7d" (.obj []) (by decide) rfl rfl).1

/-! ## Claim C6 -/

/-- Closes distribute over trace concatenation. -/
theorem countClose_append (a b : List GenAction) :
    countClose (a ++ b) = countClose a + countClose b := by
  induction a with
  | nil => simp [countClose]
  | cons x xs ih =>
    cases x with
    | yield c => simp [countClose, ih]
    | logError m => simp [countClose, ih]
    | aclose =>
      simp [countClose, ih]
      omega

/-- Yield actions contain no close. -/
theorem countClose_yields (chunks : List String) :
    countClose (chunks.map GenAction.yield) = 0 := by
  induction chunks with
  | nil => rfl
  | cons c cs ih => simpa [countClose] using ih

/-- C6: on every exit path of the streaming relay — normal end of stream,
upstream error mid-stream, and caller disconnect at any point — the upstream
response handle is released exactly once: every execution trace of
`stream_response_generator` contains exactly one `aclose`. -/
theorem c6_stream_handle_released_once (chunks : List String) (ending : StreamEnd)
    (cutoff : Option Nat) :
    countClose (stream_response_generator chunks ending cutoff) = 1 := by
  have hend : countClose (end_trace chunks ending) = 1 := by
    cases ending with
    | eof => simp [end_trace, countClose_append, countClose_yields, countClose]
    | err m => simp [end_trace, countClose_append, countClose_yields, countClose]
  cases cutoff with
  | none => simpa [stream_response_generator] using hend
  | some k =>
    by_cases hk : k < chunks.length
    · simp only [stream_response_generator, hk, if_true, countClose_append]
      rw [countClose_yields]
      rfl
    · simpa [stream_response_generator, hk] using hend

/-! ## Claim C7 -/

/-- With a non-empty token set, `verify_token` on a present header is decided
entirely by the scheme/token decomposition and set membership. -/
theorem verify_token_nonempty (allowed : List String) (a : String)
    (h : allowed.isEmpty = false) :
    verify_token allowed (some a)
      = match bearer_token a with
        | none => some 401
        | some token => if allowed.contains token then none else some 403 := by
  rcases hsp : py_split a with _ | ⟨s1, _ | ⟨s2, _ | ⟨s3, t3⟩⟩⟩
  · simp [verify_token, bearer_token, h, hsp]
  · simp [verify_token, bearer_token, h, hsp]
  · cases hbt : str_lower s1 == "bearer" <;>
      simp [verify_token, bearer_token, h, hsp, hbt]
  · simp [verify_token, bearer_token, h, hsp]

/-- C7: with an empty accepted-token set, authentication is bypassed for any
header; with a non-empty set, a missing header or one that is not a
well-formed Bearer header yields 401, a well-formed Bearer header whose token
is not in the set yields 403, and a Bearer token in the set proceeds. -/
theorem c7_auth_policy (allowed : List String) (auth : Option String) (a token : String) :
    (allowed.isEmpty = true → verify_token allowed auth = none) ∧
    (allowed.isEmpty = false → verify_token allowed none = some 401) ∧
    (allowed.isEmpty = false → bearer_token a = none →
      verify_token allowed (some a) = some 401) ∧
    (allowed.isEmpty = false → bearer_token a = some token →
      allowed.contains token = false → verify_token allowed (some a) = some 403) ∧
    (allowed.isEmpty = false → bearer_token a = some token →
      allowed.contains token = true → verify_token allowed (some a) = none) := by
  refine ⟨fun h => by simp [verify_token, h], fun h => by simp [verify_token, h],
    fun h hb => ?_, fun h hb hc => ?_, fun h hb hc => ?_⟩
  · rw [verify_token_nonempty allowed a h, hb]
  · rw [verify_token_nonempty allowed a h, hb]
    have hc2 : ¬ token ∈ allowed := by simpa using hc
    simp [hc2]
  · rw [verify_token_nonempty allowed a h, hb]
    have hc2 : token ∈ allowed := by simpa using hc
    simp [hc2]

/-- C7 witness: set `{"abc"}`, header `Bearer xyz` — 403, as in spec
scenario E. -/
theorem c7_auth_policy_witness :
    verify_token ["abc"] (some "Bearer xyz") = some 403 :=
  (c7_auth_policy ["abc"] (some "Bearer xyz") "Bearer xyz" "xyz").2.2.2.1
    (by decide) (by decide) (by decide)

/-! ## Claim C8 -/

/-- C8: a request body that is not valid JSON makes the handler return 400
with the fixed message before any upstream call is made and before any
credential reservation occurs — zero upstream calls and an unchanged rotation
cursor. -/
theorem c8_invalid_json_atomic (N cursor : Nat) (rawBody : String)
    (outcome : Nat → UpstreamResult) (hb : json_loads rawBody = none) :
    chat_completions N cursor rawBody outcome
      = (.invalidJson 400 "Invalid JSON body", cursor, 0) := by
  simp [chat_completions, hb]

/-- C8 witness: body `oops` is rejected with 400, cursor stays 1, zero
upstream calls. -/
theorem c8_invalid_json_atomic_witness :
    json_loads "oops" = none ∧
    chat_completions 3 1 "oops" (fun _ => UpstreamResult.response 200 "\x7b\x7d")
      = (.invalidJson 400 "Invalid JSON body", 1, 0) :=
  ⟨rfl, c8_invalid_json_atomic 3 1 "oops"
    (fun _ => UpstreamResult.response 200 "\x7b\x7d") rfl⟩

/-! ## Claim C9 -/

/-- C9, counterexample: the final failure detail does reveal which credential
failed last. Two all-failure runs that differ only in the credential indices
used (start 0 vs start 1 over the same two-key pool, same upstream failures)
surface the same status but different details, because the detail string
embeds the last attempt's key index. -/
theorem c9_counterexample :
    isSuccess (UpstreamResult.response 500 "boom") = false ∧
    ((dispatch false 2 0 (fun _ => UpstreamResult.response 500 "boom")).1).statusOf
      = ((dispatch false 2 1 (fun _ => UpstreamResult.response 500 "boom")).1).statusOf ∧
    ((dispatch false 2 0 (fun _ => UpstreamResult.response 500 "boom")).1).detailOf
      ≠ ((dispatch false 2 1 (fun _ => UpstreamResult.response 500 "boom")).1).detailOf :=
  ⟨rfl, rfl, by decide⟩

/-- C9 (amended): the caller sees a single final failure determined by the
last attempt alone — two all-failure runs agreeing on the last attempt's
outcome and on the last attempt's key index surface identical status and
detail, whatever the earlier attempts did — but the detail embeds the
last-tried credential's index (and the upstream error body), so runs
differing in the last attempt's credential index are distinguishable. -/
theorem c9_last_attempt_determines_failure (streaming : Bool) (N s1 s2 : Nat)
    (o1 o2 : Nat → UpstreamResult) (hN : 1 ≤ N)
    (hf1 : ∀ k, k < N → isSuccess (o1 k) = false)
    (hf2 : ∀ k, k < N → isSuccess (o2 k) = false)
    (hlast : o1 (N - 1) = o2 (N - 1))
    (hidx : (s1 + (N - 1)) % N = (s2 + (N - 1)) % N) :
    (dispatch streaming N s1 o1).1 = (dispatch streaming N s2 o2).1 ∧
    (dispatch streaming N s1 o1).2 = (dispatch streaming N s2 o2).2 := by
  rw [dispatch_all_failures streaming N s1 o1 hN hf1,
      dispatch_all_failures streaming N s2 o2 hN hf2, hlast, hidx]
  exact ⟨rfl, rfl⟩

/-- C9 witness: two all-failure runs with different first-attempt failures
(400 vs 500) but the same last attempt and last key index surface the same
caller-visible result. -/
theorem c9_last_attempt_determines_failure_witness :
    (dispatch false 2 0 (fun k => if k == 0 then UpstreamResult.response 400 "a"
                                  else UpstreamResult.response 500 "z")).1
      = (dispatch false 2 2 (fun _ => UpstreamResult.response 500 "z")).1 :=
  (c9_last_attempt_determines_failure false 2 0 2
    (fun k => if k == 0 then UpstreamResult.response 400 "a"
              else UpstreamResult.response 500 "z")
    (fun _ => UpstreamResult.response 500 "z")
    (by decide) (by decide) (by decide) rfl (by decide)).1

end OpenRouterProxy
